import Mathlib

/-!
# Verification of the `multiport` RPC core

A shallow embedding, in Lean 4, of the private `_Port` implementation class of
the `multiport` library (file `index.esm.js` of the repository, referred to
below as the source).  JavaScript runtime values are modelled by the inductive
type `JSVal`, `Map`/`WeakMap` objects by association lists with JavaScript
`Map` semantics (insertion order, in-place overwrite), and every observable
interaction of the `_Port` instance with the outside world (calls into the
`PortAdapter`, promise settlements, `console.error` diagnostics) by an
explicit list of `Effect`s.  Code of the application (message handlers,
callback functions) and of the adapter (the value returned by `send`, whether
`destroy` throws, `RegExp.test`) is abstracted into an `Env` of oracles;
the stub closures fabricated by `unmapValue`, whose body is source code of
the library itself, are modelled faithfully (`applyJS`).

Deliberate modelling approximations, each noted at its definition:
string coercion of exotic values (`jsToString`), numeric coercion of
non-numeric values (`jsToNumber`, `NaN` collapsed to `0`), thenable
detection (`isPromise` recognises exactly the modelled promise values),
and `Map` keys that the protocol only ever instantiates with strings.
-/

namespace Multiport

/-- JavaScript function values that can cross the mapper.  `orig` is an
application-level function (its `.name` property and an identity token);
`stub` is a stub closure fabricated by `unmapValue` case 1 for a callback id,
tagged with a birth counter so that two distinct fabrications are distinct
references. -/
inductive JSFun where
  | orig (nm : String) (tok : Nat)
  | stub (cbId : String) (birth : Nat)
deriving DecidableEq, Repr

/-- JavaScript runtime values, as far as the `_Port` code distinguishes them.
`obj` carries the `constructor.name` (used by the `/Error$/` test) and the own
enumerable properties in insertion order.  `promise tok` is a promise object
(identified by a token). -/
inductive JSVal where
  | undefined
  | jsNull
  | bool (b : Bool)
  | num (n : Int)
  | str (s : String)
  | arr (elems : List JSVal)
  | obj (ctor : String) (fields : List (String × JSVal))
  | fn (f : JSFun)
  | promise (tok : Nat)

/-- `Map.get`: the value of the first (for well-formed maps: only) entry with
the given key. -/
def mapGet {α β : Type} [DecidableEq α] (m : List (α × β)) (k : α) : Option β :=
  match m with
  | [] => none
  | (k', v') :: rest => if k' = k then some v' else mapGet rest k

/-- `Map.set`: overwrite in place if the key is present, else append
(JavaScript `Map` insertion-order semantics). -/
def mapSet {α β : Type} [DecidableEq α] (m : List (α × β)) (k : α) (v : β) :
    List (α × β) :=
  match m with
  | [] => [(k, v)]
  | (k', v') :: rest => if k' = k then (k, v) :: rest else (k', v') :: mapSet rest k v

/-- `Map.delete`: drop the entry with the given key. -/
def mapDelete {α β : Type} [DecidableEq α] (m : List (α × β)) (k : α) :
    List (α × β) :=
  m.filter (fun p => decide (p.1 ≠ k))

/-- Add an id to the key list of the `requests` table (`Map.set` with a fresh
capability: an existing key keeps its position). -/
def idsAdd (l : List Nat) (id : Nat) : List Nat :=
  if l.contains id then l else l ++ [id]

/-- Remove an id from the key list of the `requests` table (`Map.delete`). -/
def idsDelete (l : List Nat) (id : Nat) : List Nat :=
  l.filter (fun x => decide (x ≠ id))

/-- JavaScript falsiness of the modelled values (`NaN` is not modelled). -/
def jsFalsy : JSVal → Bool
  | .undefined => true
  | .jsNull => true
  | .bool b => !b
  | .num n => decide (n = 0)
  | .str s => decide (s = "")
  | _ => false

/-- JavaScript truthiness. -/
def jsTruthy (v : JSVal) : Bool := !jsFalsy v

/-- `typeof v === 'object'` (note `typeof null === 'object'`). -/
def typeofObject : JSVal → Bool
  | .jsNull => true
  | .arr _ => true
  | .obj _ _ => true
  | .promise _ => true
  | _ => false

/-- `typeof v === 'object' && v !== null`, the `isObject` of `mapValue`. -/
def isObjectNonNull : JSVal → Bool
  | .arr _ => true
  | .obj _ _ => true
  | .promise _ => true
  | _ => false

/-- `typeof v === 'function'`. -/
def isFunction : JSVal → Bool
  | .fn _ => true
  | _ => false

/-- `typeof v === 'number'`. -/
def typeofNum : JSVal → Bool
  | .num _ => true
  | _ => false

/-- `typeof v === 'string'`. -/
def typeofStr : JSVal → Bool
  | .str _ => true
  | _ => false

/-- `typeof v === 'boolean'`. -/
def typeofBool : JSVal → Bool
  | .bool _ => true
  | _ => false

/-- `('' in value) && Object.getOwnPropertyDescriptor(value, '')`: the value
has an own property named by the empty string.  In the model only `obj`
carries own properties, so both conjuncts coincide. -/
def hasEmptyKey : JSVal → Bool
  | .obj _ fields => (mapGet fields "").isSome
  | _ => false

/-- `value.constructor.name` (the modelled objects all have a constructor). -/
def ctorNameOf : JSVal → String
  | .obj c _ => c
  | .arr _ => "Array"
  | .promise _ => "Promise"
  | _ => ""

/-- `/Error$/.test(s)`: does the string end in `Error`?  (Implemented over
the character lists so that it evaluates by reduction.) -/
def strEndsWith (s t : String) : Bool :=
  t.data.isSuffixOf s.data

/-- The `else if (isObject && value.constructor && /Error$/.test(...))` test
of `mapValue`: a non-null object whose constructor name ends in `Error`. -/
def errorLike (v : JSVal) : Bool :=
  isObjectNonNull v && strEndsWith (ctorNameOf v) "Error"

/-- Property read `v[k]` on values that cannot throw; absent keys give
`undefined`.  Only `obj` carries modelled own properties. -/
def getField : JSVal → String → JSVal
  | .obj _ fields, k => (mapGet fields k).getD .undefined
  | _, _ => .undefined

/-- JavaScript string coercion `v + ''`, approximated for arrays, functions
and promises (the source only ever coerces the `name`/`message`/`stack`/`cb`
slots, which the protocol fills with strings, or with `undefined` for absent
slots). -/
def jsToString : JSVal → String
  | .undefined => "undefined"
  | .jsNull => "null"
  | .bool b => cond b "true" "false"
  | .num n => toString n
  | .str s => s
  | .arr _ => ""
  | .obj _ _ => "[object Object]"
  | .promise _ => "[object Promise]"
  | .fn _ => "function"

/-- JavaScript numeric coercion, approximated: values that coerce to `NaN`
are collapsed to `0` (the protocol only ever puts numbers in the coerced
positions). -/
def jsToNumber : JSVal → Int
  | .num n => n
  | .bool b => cond b 1 0
  | .str s => (s.toInt?).getD 0
  | _ => 0

/-- An error object as constructed by `new <cls>(<msg>)`.  The model keeps
`name` as an own property (standing in for the prototype-provided one, which
the `value.name` reads of `mapValue` reach through the prototype chain) and
an abstracted `stack` string. -/
def mkError (cls msg : String) : JSVal :=
  .obj cls [("name", .str cls), ("message", .str msg),
    ("stack", .str (cls ++ ": " ++ msg))]

/-- The private state of a `_Port` instance, field for field after its
constructor.  `requests` keeps only the `Map` keys: each pending
`PromiseCapability` is identified by its id.  `endedWith` is the `ended`
promise (`none` = pending, `some v` = resolved with `v`).  `public` is the
`this.public` null check (`false` once `destroy` has nulled it).  `fresh`
feeds both `getRandomId` and the birth tags of fabricated stubs. -/
structure PortState where
  requests : List Nat
  handlers : List (String × JSFun × JSVal)
  wildcards : List (Nat × JSFun × JSVal)
  lastId : Nat
  cb2id : List (JSFun × String)
  id2cb : List (String × JSFun)
  endQueue : List (JSVal × JSVal)
  endedWith : Option JSVal
  public : Bool
  isRequestFlag : Int
  fresh : Nat

/-- The state of a freshly constructed `_Port` (`lastId = 1`: "`1` will never
be used"). -/
def initPort : PortState :=
  { requests := [], handlers := [], wildcards := [], lastId := 1,
    cb2id := [], id2cb := [], endQueue := [], endedWith := none,
    public := true, isRequestFlag := 0, fresh := 0 }

/-- The part of the port state the value mapper mutates: the two callback
maps and the freshness supply.  `mapValue`/`unmapValue` touch nothing else,
which this factoring makes explicit. -/
structure CbState where
  cb2id : List (JSFun × String)
  id2cb : List (String × JSFun)
  fresh : Nat

/-- The mapper's view of a port state. -/
def PortState.cbs (s : PortState) : CbState :=
  { cb2id := s.cb2id, id2cb := s.id2cb, fresh := s.fresh }

/-- Write the mapper's fields back into the port state. -/
def PortState.withCbs (s : PortState) (c : CbState) : PortState :=
  { s with cb2id := c.cb2id, id2cb := c.id2cb, fresh := c.fresh }

/-- `getRandomId()`: a fresh id.  Both variants in the source produce
non-empty strings of digits in base 32; the model draws `"r" ++ n` from the
freshness counter. -/
def getRandomId (c : CbState) : String × CbState :=
  ("r" ++ Nat.repr c.fresh, { c with fresh := c.fresh + 1 })

/-- Every observable action of the port on its surroundings. -/
inductive Effect where
  /-- `this.port.send(name, id, args, opts)` on the adapter. -/
  | send (name : String) (id : Int) (args : List JSVal) (opts : JSVal)
  /-- The one-shot `reply('', id, args)` callback offered by the adapter. -/
  | reply (id : Int) (args : List JSVal)
  /-- `reportError(...)` / `console.error(...)`: a diagnostic with a leading
  message (possibly empty) and the reported value. -/
  | diagnostic (msg : String) (e : JSVal)
  /-- A pending request capability resolved with a value. -/
  | resolveReq (id : Nat) (v : JSVal)
  /-- A pending request capability rejected with a value. -/
  | rejectReq (id : Nat) (v : JSVal)
  /-- The `ended` promise resolved (`this.onEnd(v)`). -/
  | endedResolve (v : JSVal)
  /-- `this.port.destroy()` on the adapter. -/
  | adapterDestroy
  /-- `value.then(null, err => reportError(...))` attached to a handler
  promise of a post. -/
  | attachPostLogger (tok : Nat)
  /-- `value.then(reply +id, reply -id)` attached to a handler promise of a
  request (`usesReply`: via the one-shot reply rather than `send`). -/
  | attachReplyCont (usesReply : Bool) (id : Int) (tok : Nat)

/-- Outcome of invoking an application-level function. -/
inductive HOutcome where
  | ret (v : JSVal)
  | thr (e : JSVal)

/-- The oracles abstracting code outside `_Port`: application functions
(`app tok thisArg args`), `RegExp.test` for the wildcard patterns (`ptest`),
the value the adapter's `send` returns (`none` = `undefined`), which global
error-class names resolve to functions, and whether the adapter's `destroy`
throws. -/
structure Env where
  app : Nat → JSVal → List JSVal → HOutcome
  ptest : Nat → String → Bool
  sendRet : String → Int → List JSVal → Option JSVal
  globalFn : String → Bool
  adapterDestroyThrows : Option JSVal

/-- `mapValue(value)` of `_Port` over the mapper sub-state. -/
def mapValueCb (c : CbState) (value : JSVal) : CbState × JSVal :=
  if hasEmptyKey value then
    (c, .obj "Object" [("", .num 0), ("raw", value)])
  else
    match value with
    | .fn f =>
        let pr :=
          match mapGet c.cb2id f with
          | some cbId => if cbId = "" then getRandomId c else (cbId, c)
          | none => getRandomId c
        ({ pr.2 with id2cb := mapSet pr.2.id2cb pr.1 f,
                     cb2id := mapSet pr.2.cb2id f pr.1 },
         .obj "Object" [("", .num 1), ("cb", .str pr.1)])
    | v =>
        if errorLike v then
          (c, .obj "Object" [("", .num 2),
            ("name", .str (jsToString (getField v "name"))),
            ("message", .str (jsToString (getField v "message"))),
            ("stack", .str (jsToString (getField v "stack"))),
            ("code", if typeofNum (getField v "code") || typeofStr (getField v "code")
                     then getField v "code" else .undefined),
            ("status", if typeofNum (getField v "status") || typeofStr (getField v "status")
                       then getField v "status" else .undefined),
            ("expose", if typeofBool (getField v "expose") then getField v "expose" else .undefined),
            ("fileName", if typeofStr (getField v "fileName") then getField v "fileName" else .undefined),
            ("lineNumber", if typeofNum (getField v "lineNumber") then getField v "lineNumber" else .undefined),
            ("columnNumber", if typeofNum (getField v "columnNumber") then getField v "columnNumber" else .undefined)])
        else (c, v)

/-- `mapValue(value)` of `_Port` on the full port state (it mutates only the
mapper sub-state). -/
def mapValue (s : PortState) (value : JSVal) : PortState × JSVal :=
  (s.withCbs (mapValueCb s.cbs value).1, (mapValueCb s.cbs value).2)

/-- `args.map(this.mapValue, this)` over the mapper sub-state. -/
def mapListCb (c : CbState) : List JSVal → CbState × List JSVal
  | [] => (c, [])
  | v :: rest =>
      let r1 := mapValueCb c v
      let r2 := mapListCb r1.1 rest
      (r2.1, r1.2 :: r2.2)

/-- `args.map(this.mapValue, this)` on the full port state. -/
def mapList (s : PortState) (l : List JSVal) : PortState × List JSVal :=
  (s.withCbs (mapListCb s.cbs l).1, (mapListCb s.cbs l).2)

/-- `unmapValue(value)` of `_Port` over the mapper sub-state.  A `.error`
result is a thrown exception.  The callback-id slot `value.cb` is coerced to
a string for the `Map` keys (the protocol only ever fills it with the
strings `mapValue` produced). -/
def unmapValueCb (env : Env) (c : CbState) (value : JSVal) :
    CbState × Except JSVal JSVal :=
  match value with
  | .obj cn fields =>
      match mapGet fields "" with
      | none => (c, .ok value)
      | some tag =>
          -- `switch (value[''])` with strict (`===`) case comparison
          match tag with
          | .num 0 =>
              (c, .ok (getField (.obj cn fields) "raw"))
          | .num 1 =>
              let cbId := jsToString (getField (.obj cn fields) "cb")
              match mapGet c.id2cb cbId with
              | some cb =>
                  ({ c with id2cb := mapSet c.id2cb cbId cb,
                            cb2id := mapSet c.cb2id cb cbId }, .ok (.fn cb))
              | none =>
                  let cb := JSFun.stub cbId c.fresh
                  ({ c with fresh := c.fresh + 1,
                            id2cb := mapSet c.id2cb cbId cb,
                            cb2id := mapSet c.cb2id cb cbId }, .ok (.fn cb))
          | .num 2 =>
              let nm := jsToString (getField (.obj cn fields) "name")
              let cls := if env.globalFn nm then nm else "Error"
              (c, .ok (.obj cls (fields.filter (fun p => decide (p.1 ≠ "")))))
          | _ =>
              (c, .error (mkError "TypeError" "Can't unmap argument"))
  | v => (c, .ok v)

/-- `unmapValue(value)` of `_Port` on the full port state. -/
def unmapValue (env : Env) (s : PortState) (value : JSVal) :
    PortState × Except JSVal JSVal :=
  (s.withCbs (unmapValueCb env s.cbs value).1, (unmapValueCb env s.cbs value).2)

/-- `args.map(this.unmapValue, this)` over the mapper sub-state: the first
thrown exception aborts the map (mutations up to that point persist). -/
def unmapListCb (env : Env) (c : CbState) : List JSVal → CbState × Except JSVal (List JSVal)
  | [] => (c, .ok [])
  | v :: rest =>
      let r1 := unmapValueCb env c v
      match r1.2 with
      | .ok v' =>
          let r2 := unmapListCb env r1.1 rest
          match r2.2 with
          | .ok rest' => (r2.1, .ok (v' :: rest'))
          | .error e => (r2.1, .error e)
      | .error e => (r1.1, .error e)

/-- `args.map(this.unmapValue, this)` on the full port state. -/
def unmapList (env : Env) (s : PortState) (l : List JSVal) :
    PortState × Except JSVal (List JSVal) :=
  (s.withCbs (unmapListCb env s.cbs l).1, (unmapListCb env s.cbs l).2)

/-- Property read `v[i]` with a numeric index; throws (`.error`) on
`undefined`/`null`, gives `undefined` past the end of an array or on values
without indexed properties. -/
def jsIndex (v : JSVal) (i : Nat) : Except JSVal JSVal :=
  match v with
  | .arr l => .ok (l.getD i .undefined)
  | .undefined => .error (mkError "TypeError" "Cannot read properties of undefined")
  | .jsNull => .error (mkError "TypeError" "Cannot read properties of null")
  | .obj _ fields => .ok ((mapGet fields (Nat.repr i)).getD .undefined)
  | .str s =>
      .ok (match s.toList.get? i with
           | some c => .str (String.mk [c])
           | none => .undefined)
  | _ => .ok .undefined

/-- `args.map(...)` viewed as obtaining the element list: throws unless the
value is an array (`.map` of `undefined`/`null`/non-arrays raises a
`TypeError`). -/
def argsMapList : JSVal → Except JSVal (List JSVal)
  | .arr l => .ok l
  | .undefined => .error (mkError "TypeError" "Cannot read properties of undefined")
  | .jsNull => .error (mkError "TypeError" "Cannot read properties of null")
  | _ => .error (mkError "TypeError" "args.map is not a function")

/-- Where control stands when the `try` body of `onData`'s request branch is
left: returned early with a boolean, fell through with the handler `value`,
or threw. -/
inductive StepRes where
  | early (b : Bool)
  | val (v : JSVal)
  | err (e : JSVal)

/-- Calling a JavaScript function value.  An `orig` function is application
code, abstracted by the `env.app` oracle (the oracle is pure: a handler that
re-enters the port is outside this model).  A `stub` is the closure
fabricated in `unmapValue` case 1, whose body is source code of the library
and is modelled faithfully: guard on `this.public`, allocate the next id,
send `['', 0, [id, 0, cbId, mappedArgs], null]`, and either return the
adapter's synchronous result or register a request capability and return its
promise. -/
def applyJS (env : Env) (s : PortState) (f : JSFun) (thisArg : JSVal)
    (args : List JSVal) : PortState × List Effect × HOutcome :=
  match f with
  | .orig _ tok => (s, [], env.app tok thisArg args)
  | .stub cbId _ =>
      if !s.public then
        (s, [], .thr (mkError "Error" "Remote callback connection is closed"))
      else
        let newId := s.lastId + 1
        let s1 : PortState := { s with lastId := newId }
        let s2 := (mapList s1 args).1
        let msg : List JSVal :=
          [.num (Int.ofNat newId), .num 0, .str cbId, .arr (mapList s1 args).2]
        match env.sendRet "" 0 msg with
        | some v => (s2, [.send "" 0 msg .jsNull], .ret v)
        | none =>
            ({ s2 with requests := idsAdd s2.requests newId },
             [.send "" 0 msg .jsNull], .ret (.promise newId))

/-- The `isPromise` duck test, approximated to the modelled promise values
(the source memoises a constructor probe; only genuine promises are modelled
as thenables). -/
def isPromise : JSVal → Bool
  | .promise _ => true
  | _ => false

/-- The `if (!name && id === 0)` body of `onData`: the control sub-protocol.
Returns the state, effects, the reassigned `id = args[0]` (a raw value, used
by the later `id !== 0` / `if (id)` tests) and where control left the block.
Note the tag-2 branch (`// callback release`): its body in the source is the
same `endQueue.push` as the tag-1 branch. -/
def onDataSpecial (env : Env) (s : PortState) (argsV : JSVal) :
    PortState × List Effect × JSVal × StepRes :=
  match jsIndex argsV 0 with
  | .error e => (s, [], .num 0, .err e)  -- `id = args[0]` threw; `id` is still the parameter 0
  | .ok id0 =>
      match jsIndex argsV 1 with
      | .error e => (s, [], id0, .err e)
      | .ok tag =>
          match tag with
          | .num 0 =>  -- callback call
              match jsIndex argsV 2 with
              | .error e => (s, [], id0, .err e)
              | .ok cbKey =>
                  let lookup := match cbKey with
                    | .str k => mapGet s.id2cb k
                    | _ => none  -- a non-string key misses the string-keyed Map
                  match lookup with
                  | none => (s, [], id0, .err (mkError "Error" "Remote callback has been destroyed"))
                  | some cb =>
                      match jsIndex argsV 3 with
                      | .error e => (s, [], id0, .err e)
                      | .ok a3 =>
                          match argsMapList a3 with
                          | .error e => (s, [], id0, .err e)
                          | .ok l =>
                              let u := unmapList env s l
                              match u.2 with
                              | .error e => (u.1, [], id0, .err e)
                              | .ok vs =>
                                  let ap := applyJS env u.1 cb .jsNull vs
                                  match ap.2.2 with
                                  | .ret v => (ap.1, ap.2.1, id0, .val v)
                                  | .thr e => (ap.1, ap.2.1, id0, .err e)
          | .num 1 =>  -- end Queue
              match jsIndex argsV 2, jsIndex argsV 3 with
              | .ok a2, .ok a3 =>
                  ({ s with endQueue := s.endQueue ++ [(a2, a3)] }, [], id0, .early false)
              | .error e, _ => (s, [], id0, .err e)
              | _, .error e => (s, [], id0, .err e)
          | .num 2 =>  -- callback release (body identical to the tag-1 branch in the source)
              match jsIndex argsV 2, jsIndex argsV 3 with
              | .ok a2, .ok a3 =>
                  ({ s with endQueue := s.endQueue ++ [(a2, a3)] }, [], id0, .early false)
              | .error e, _ => (s, [], id0, .err e)
              | _, .error e => (s, [], id0, .err e)
          | _ => (s, [], id0, .err (mkError "Error" "Bad request"))

/-- First wildcard entry whose `RegExp` tests true for the (coerced) name,
in registration order. -/
def findWildcard (env : Env) : List (Nat × JSFun × JSVal) → String → Option (JSFun × JSVal)
  | [], _ => none
  | (tok, pair) :: rest, n =>
      if env.ptest tok n then some pair else findWildcard env rest n

/-- `this._isRequest = id === 0 ? -1 : 1; value = handler.apply(thisArg !==
undefined ? thisArg : altThis, args);` with the `finally` reset of the flag
(the flag therefore nets to `0`; a throw propagates). -/
def invokeHandler (env : Env) (s : PortState) (h : JSFun) (thisArg altThis : JSVal)
    (id : Int) (args : List JSVal) : PortState × List Effect × StepRes :=
  let s0 : PortState := { s with isRequestFlag := if id = 0 then -1 else 1 }
  let thisSel := match thisArg with
    | .undefined => altThis
    | t => t
  let ap := applyJS env s0 h thisSel args
  match ap.2.2 with
  | .ret v => ({ ap.1 with isRequestFlag := 0 }, ap.2.1, .val v)
  | .thr e => ({ ap.1 with isRequestFlag := 0 }, ap.2.1, .err e)

/-- The `else` body of `onData`'s request branch: decode the arguments, look
a handler up (exact name first, then wildcards, with `args.unshift(name)` on
the wildcard path) and invoke it; no handler means a `No such handler` throw
unless the message is optional. -/
def onDataRegular (env : Env) (s : PortState) (nameV : JSVal) (id : Int) (argsV : JSVal)
    (altThis : JSVal) (optional : Bool) : PortState × List Effect × StepRes :=
  match argsMapList argsV with
  | .error e => (s, [], .err e)
  | .ok rawArgs =>
      let u := unmapList env s rawArgs
      match u.2 with
      | .error e => (u.1, [], .err e)
      | .ok args1 =>
          let exact := match nameV with
            | .str n => mapGet u.1.handlers n
            | _ => none
          match exact with
          | some pair => invokeHandler env u.1 pair.1 pair.2 altThis id args1
          | none =>
              match findWildcard env u.1.wildcards (jsToString nameV) with
              | some pair => invokeHandler env u.1 pair.1 pair.2 altThis id (nameV :: args1)
              | none =>
                  if !optional then
                    (u.1, [], .err (mkError "Error"
                      ("No such handler \"" ++ jsToString nameV ++ "\"")))
                  else (u.1, [], .early false)

/-- A reply through the adapter's one-shot `reply` function when it was
offered, else through `this.port.send('', id, args)`. -/
def emitReply (hasReply : Bool) (i : Int) (args : List JSVal) : Effect :=
  if hasReply then .reply i args else .send "" i args .undefined

/-- The tail of `onData`'s request branch: the `isPromise` dispatch on the
handler `value`, and the `catch` of the surrounding `try`.  `eid` is the raw
`id` (possibly reassigned to `args[0]` by the control sub-protocol): the
source compares it with `!== 0` / `=== 0` (strict, so only the number `0`
matches) and, in the `catch`, by truthiness (`if (id)`), and coerces it with
`+id` / `-id` when sending. -/
def onDataFinish (s : PortState) (eid : JSVal) (hasReply : Bool)
    (effs : List Effect) (res : StepRes) : PortState × List Effect × Bool :=
  match res with
  | .early b => (s, effs, b)
  | .val v =>
      match v with
      | .promise tok =>
          match eid with
          | .num 0 => (s, effs ++ [.attachPostLogger tok], false)
          | _ => (s, effs ++ [.attachReplyCont hasReply (jsToNumber eid) tok], true)
      | v' =>
          match eid with
          | .num 0 => (s, effs, false)
          | _ =>
              ((mapValue s v').1,
               effs ++ [emitReply hasReply (jsToNumber eid) [(mapValue s v').2]], false)
  | .err e =>
      if jsTruthy eid then
        ((mapValue s e).1,
         effs ++ [emitReply hasReply (-(jsToNumber eid)) [(mapValue s e).2]], false)
      else (s, effs ++ [.diagnostic "Uncaught error in handler (post)" e], false)

/-- The reply branch of `onData` (falsy name, `id ≠ 0`): the sign picks
resolve/reject, the absolute value the request entry; the entry is deleted
before the `!request` check, and every throw inside is caught and reported. -/
def onDataReply (env : Env) (s : PortState) (id : Int) (argsV : JSVal) :
    PortState × List Effect × Bool :=
  let threw := id < 0
  let key := id.natAbs
  let found := s.requests.contains key
  let s1 := { s with requests := idsDelete s.requests key }
  if found then
    match jsIndex argsV 0 with
    | .error e => (s1, [.diagnostic "" e], false)
    | .ok a0 =>
        let u := unmapValue env s1 a0
        match u.2 with
        | .ok v =>
            (u.1, [if threw then .rejectReq key v else .resolveReq key v], false)
        | .error e => (u.1, [.diagnostic "" e], false)
  else
    (s1, [.diagnostic "" (mkError "Error" "Bad or duplicate response id")], false)

/-- `onData(name, id, args, altThis, reply, optional)` of `_Port`.  The name
and argument positions carry raw values (`JSVal`): adapters always deliver a
string and an array, but the `endQueue` replay of `destroy` can feed other
shapes through the same method.  `hasReply` stands for a reply function
having been supplied.  Returns the mutated state, the emitted effects and
the boolean return value. -/
def onData (env : Env) (s : PortState) (nameV : JSVal) (id : Int) (argsV : JSVal)
    (altThis : JSVal) (hasReply : Bool) (optional : Bool) :
    PortState × List Effect × Bool :=
  if jsTruthy nameV || id = 0 then
    if !jsTruthy nameV && id = 0 then
      let r := onDataSpecial env s argsV
      onDataFinish r.1 r.2.2.1 hasReply r.2.1 r.2.2.2
    else
      let r := onDataRegular env s nameV id argsV altThis optional
      onDataFinish r.1 (.num id) hasReply r.2.1 r.2.2
  else
    onDataReply env s id argsV

/-- `this.endQueue.forEach(([name, args]) => this.onData(name, 0, args))`
over a snapshot of the queue (`forEach` does not visit entries appended
during the iteration). -/
def flushQueue (env : Env) : PortState → List (JSVal × JSVal) → PortState × List Effect
  | s, [] => (s, [])
  | s, entry :: rest =>
      let r := onData env s entry.1 0 entry.2 .undefined false false
      let r' := flushQueue env r.1 rest
      (r'.1, r.2.1 ++ r'.2)

/-- The rejection reason `destroy` gives every pending request. -/
def destroyedError : JSVal :=
  mkError "Error" "The Port this request is waiting on was destroyed"

/-- `destroy(error)` of `_Port`: no-op once `public` is nulled; else replay
the `endQueue` through `onData`, reject and clear all pending requests,
clear `handlers` and `id2cb` (`cb2id` is a `WeakMap` and has no `clear`;
`wildcards` is not cleared either), resolve `ended` (with the reason if it
is `typeof 'object'`, else `null`), call the adapter's `destroy` guarded by
`try/catch`, and null out `public`. -/
def destroy (env : Env) (s : PortState) (reason : Option JSVal) :
    PortState × List Effect :=
  if !s.public then (s, [])
  else
    let s1 := (flushQueue env s s.endQueue).1
    let effsQ := (flushQueue env s s.endQueue).2
    let rejects := s1.requests.map (fun id => Effect.rejectReq id destroyedError)
    let s2 : PortState := { s1 with requests := [], handlers := [], id2cb := [] }
    let endVal := match reason with
      | some e => if typeofObject e then e else .jsNull
      | none => .jsNull
    let s3 := { s2 with endedWith := match s2.endedWith with
                          | some v => some v
                          | none => some endVal }
    let destroyEffs := match env.adapterDestroyThrows with
      | none => [Effect.adapterDestroy]
      | some e => [Effect.adapterDestroy, Effect.diagnostic "" e]
    ({ s3 with public := false },
     effsQ ++ rejects ++ [Effect.endedResolve endVal] ++ destroyEffs)

/-- What `methods.request` hands back to its caller. -/
inductive ReqOutcome where
  | thrown (e : JSVal)
  | direct (v : JSVal)
  | pending (id : Nat)

/-- The options shift shared by `request`/`post`/`afterEnded`:
`if (typeof name === 'object') { options = name; name = args.shift(); }`
(note `typeof null === 'object'`).  Returns `(options, name, args)`. -/
def requestShift (nameArg : JSVal) (argsIn : List JSVal) : JSVal × JSVal × List JSVal :=
  if typeofObject nameArg then (nameArg, argsIn.headD .undefined, argsIn.tail)
  else (JSVal.jsNull, nameArg, argsIn)

/-- `request(name, ...args)` of `_Port`: the optional leading options object
(`typeof name === 'object'`, note `typeof null === 'object'`) is shifted
off, a non-string name throws a `TypeError`, then the next id is allocated,
the arguments are mapped and handed to the adapter's `send`; a non-undefined
synchronous return short-circuits the Request Table. -/
def request (env : Env) (s : PortState) (nameArg : JSVal) (argsIn : List JSVal) :
    PortState × List Effect × ReqOutcome :=
  match (requestShift nameArg argsIn).2.1 with
  | .str nm =>
      let newId := s.lastId + 1
      let s1 : PortState := { s with lastId := newId }
      let s2 := (mapList s1 (requestShift nameArg argsIn).2.2).1
      let mapped := (mapList s1 (requestShift nameArg argsIn).2.2).2
      match env.sendRet nm (Int.ofNat newId) mapped with
      | some v =>
          (s2, [.send nm (Int.ofNat newId) mapped (requestShift nameArg argsIn).1], .direct v)
      | none =>
          ({ s2 with requests := idsAdd s2.requests newId },
           [.send nm (Int.ofNat newId) mapped (requestShift nameArg argsIn).1], .pending newId)
  | _ => (s, [], .thrown (mkError "TypeError" "The request name must be a string"))

/-- The public `Port.request` path: `getPrivate` throws on a destroyed Port
(`this.public` nulled) before `methods.request` runs. -/
def requestPublic (env : Env) (s : PortState) (nameArg : JSVal) (argsIn : List JSVal) :
    PortState × List Effect × ReqOutcome :=
  if !s.public then (s, [], .thrown (mkError "Error" "Can't use disconnected Port"))
  else request env s nameArg argsIn

/-- What `addHandlers` hands back to its caller. -/
inductive AddOutcome where
  | ok
  | thrown (e : JSVal)

/-- The name slot of an array entry: `f && f.name`. -/
def fNameSlot (f : JSVal) : JSVal :=
  if jsFalsy f then f
  else match f with
    | .fn (.orig nm _) => .str nm
    | .fn (.stub _ _) => .str ""
    | .obj _ fields => (mapGet fields "name").getD .undefined
    | _ => .undefined

/-- The validation pass of `addHandlers`: every entry name must be a
non-empty string not already taken — tested against `this.handlers` under
the entry name itself (the prefix is NOT applied here; registration below
uses `prefix + name`).  Returns the first thrown error. -/
def validateEntries (s : PortState) : List (JSVal × JSVal) → Option JSVal
  | [] => none
  | (nmV, _) :: rest =>
      match nmV with
      | .str n =>
          if n = "" then
            some (mkError "TypeError" "Handler names must be non-empty strings")
          else if (mapGet s.handlers n).isSome then
            some (mkError "Error" ("Duplicate message handler for \"" ++ n ++ "\""))
          else validateEntries s rest
      | _ => some (mkError "TypeError" "Handler names must be non-empty strings")

/-- The registration pass of `addHandlers`:
`this.handlers.set(prefix + name, [handler, thisArg])` for every entry. -/
def registerEntries (s : PortState) (pre : String) (thisArg : JSVal) :
    List (JSVal × JSVal) → PortState
  | [] => s
  | (nmV, fV) :: rest =>
      let s1 := match nmV, fV with
        | .str n, .fn f =>
            { s with handlers := mapSet s.handlers (pre ++ n) (f, thisArg) }
        | _, _ => s  -- unreachable after validation
      registerEntries s1 pre thisArg rest

/-- `addHandlers(prefix, handlers, thisArg)` of `_Port`. -/
def addHandlers (s : PortState) (prefixArg handlersArg thisArgIn : JSVal) :
    PortState × AddOutcome :=
  let triple :=
    if typeofObject prefixArg then (JSVal.str "", prefixArg, handlersArg)
    else (prefixArg, handlersArg, thisArgIn)
  match triple.1 with
  | .str pre =>
      if !typeofObject triple.2.1 then
        (s, .thrown (mkError "TypeError" "'handlers' argument must be an object (or Array)"))
      else
        match triple.2.1 with
        | .jsNull =>  -- `Object.keys(null)` throws
            (s, .thrown (mkError "TypeError" "Cannot convert undefined or null to object"))
        | hv =>
            let pairs : List (JSVal × JSVal) :=
              match hv with
              | .arr l => l.map (fun f => (fNameSlot f, f))
              | .obj _ fields => fields.map (fun kv => (JSVal.str kv.1, kv.2))
              | _ => []  -- no own enumerable keys
            let add := pairs.filter (fun p => isFunction p.2)
            match validateEntries s add with
            | some e => (s, .thrown e)
            | none => (registerEntries s pre triple.2.2 add, .ok)
  | _ => (s, .thrown (mkError "TypeError" "Handler name prefixes must be strings (or omitted)"))

/-- `releaseCallback(callback, remote)` of `_Port`: look the function up in
`cb2id` (`WeakMap.get` with anything that is not a bound function gives
`undefined`), return silently on a falsy id, else delete both directions and
— unless the release is remote-initiated — send the tag-2 release notice. -/
def releaseCallback (s : PortState) (v : JSVal) (remote : Bool) :
    PortState × List Effect :=
  match v with
  | .fn f =>
      match mapGet s.cb2id f with
      | none => (s, [])
      | some cbId =>
          if cbId = "" then (s, [])  -- `if (!cbId) { return; }`
          else
            ({ s with id2cb := mapDelete s.id2cb cbId,
                      cb2id := mapDelete s.cb2id f },
             if remote then [] else [.send "" 0 [.num 0, .num 2, .str cbId] .jsNull])
  | _ => (s, [])

/-- An environment with inert oracles: handlers return `undefined`, no
wildcard matches, the adapter's `send` returns `undefined` and its `destroy`
does not throw, no global error classes. -/
def emptyEnv : Env :=
  { app := fun _ _ _ => .ret .undefined, ptest := fun _ _ => false,
    sendRet := fun _ _ _ => none, globalFn := fun _ => false,
    adapterDestroyThrows := none }

/-! ## Basic lemmas about the map model and the mapper's frame -/

theorem mapGet_mapSet_self {α β : Type} [DecidableEq α] (m : List (α × β)) (k : α) (v : β) :
    mapGet (mapSet m k v) k = some v := by
  induction m with
  | nil => simp [mapSet, mapGet]
  | cons p rest ih =>
      obtain ⟨k', v'⟩ := p
      by_cases h : k' = k
      · simp [mapSet, h, mapGet]
      · simp [mapSet, h, mapGet, ih]

theorem mapSet_mapSet_self {α β : Type} [DecidableEq α] (m : List (α × β)) (k : α) (v : β) :
    mapSet (mapSet m k v) k v = mapSet m k v := by
  induction m with
  | nil => simp [mapSet]
  | cons p rest ih =>
      obtain ⟨k', v'⟩ := p
      by_cases h : k' = k
      · simp [mapSet, h]
      · simp [mapSet, h, ih]

@[simp] theorem withCbs_requests (s : PortState) (c : CbState) :
    (s.withCbs c).requests = s.requests := rfl
@[simp] theorem withCbs_handlers (s : PortState) (c : CbState) :
    (s.withCbs c).handlers = s.handlers := rfl
@[simp] theorem withCbs_wildcards (s : PortState) (c : CbState) :
    (s.withCbs c).wildcards = s.wildcards := rfl
@[simp] theorem withCbs_lastId (s : PortState) (c : CbState) :
    (s.withCbs c).lastId = s.lastId := rfl
@[simp] theorem withCbs_endQueue (s : PortState) (c : CbState) :
    (s.withCbs c).endQueue = s.endQueue := rfl
@[simp] theorem withCbs_endedWith (s : PortState) (c : CbState) :
    (s.withCbs c).endedWith = s.endedWith := rfl
@[simp] theorem withCbs_public (s : PortState) (c : CbState) :
    (s.withCbs c).public = s.public := rfl
@[simp] theorem withCbs_isRequestFlag (s : PortState) (c : CbState) :
    (s.withCbs c).isRequestFlag = s.isRequestFlag := rfl
@[simp] theorem withCbs_cb2id (s : PortState) (c : CbState) :
    (s.withCbs c).cb2id = c.cb2id := rfl
@[simp] theorem withCbs_id2cb (s : PortState) (c : CbState) :
    (s.withCbs c).id2cb = c.id2cb := rfl
@[simp] theorem withCbs_fresh (s : PortState) (c : CbState) :
    (s.withCbs c).fresh = c.fresh := rfl

@[simp] theorem mapValue_fst (s : PortState) (v : JSVal) :
    (mapValue s v).1 = s.withCbs (mapValueCb s.cbs v).1 := rfl
@[simp] theorem mapList_fst (s : PortState) (l : List JSVal) :
    (mapList s l).1 = s.withCbs (mapListCb s.cbs l).1 := rfl
@[simp] theorem unmapValue_fst (env : Env) (s : PortState) (v : JSVal) :
    (unmapValue env s v).1 = s.withCbs (unmapValueCb env s.cbs v).1 := rfl
@[simp] theorem unmapList_fst (env : Env) (s : PortState) (l : List JSVal) :
    (unmapList env s l).1 = s.withCbs (unmapListCb env s.cbs l).1 := rfl

/-- Is an effect the adapter-destroy call? -/
def isAdapterDestroy : Effect → Bool
  | .adapterDestroy => true
  | _ => false

theorem mem_idsAdd (l : List Nat) (id k : Nat) (h : k ∈ l) : k ∈ idsAdd l id := by
  unfold idsAdd
  split
  · exact h
  · exact List.mem_append_left _ h

/-! ## Frame lemmas for `onData`, for the destroy path -/

theorem applyJS_requests_mono (env : Env) (s : PortState) (f : JSFun) (t : JSVal)
    (a : List JSVal) (k : Nat) (hk : k ∈ s.requests) :
    k ∈ (applyJS env s f t a).1.requests := by
  cases f with
  | orig nm tok => exact hk
  | stub cbId birth =>
      unfold applyJS
      dsimp only []
      split
      · exact hk
      · split
        · exact hk
        · exact mem_idsAdd _ _ _ hk

theorem applyJS_noDestroy (env : Env) (s : PortState) (f : JSFun) (t : JSVal)
    (a : List JSVal) :
    (applyJS env s f t a).2.1.countP isAdapterDestroy = 0 := by
  cases f with
  | orig nm tok => rfl
  | stub cbId birth =>
      unfold applyJS
      dsimp only []
      split
      · rfl
      · split <;> rfl

theorem invokeHandler_requests_mono (env : Env) (s : PortState) (h : JSFun)
    (t a0 : JSVal) (id : Int) (args : List JSVal) (k : Nat) (hk : k ∈ s.requests) :
    k ∈ (invokeHandler env s h t a0 id args).1.requests := by
  unfold invokeHandler
  dsimp only []
  repeat' split
  all_goals exact applyJS_requests_mono env _ h _ args k hk

theorem invokeHandler_noDestroy (env : Env) (s : PortState) (h : JSFun)
    (t a0 : JSVal) (id : Int) (args : List JSVal) :
    (invokeHandler env s h t a0 id args).2.1.countP isAdapterDestroy = 0 := by
  unfold invokeHandler
  dsimp only []
  repeat' split
  all_goals exact applyJS_noDestroy env _ h _ args

theorem onDataSpecial_requests_mono (env : Env) (s : PortState) (argsV : JSVal)
    (k : Nat) (hk : k ∈ s.requests) :
    k ∈ (onDataSpecial env s argsV).1.requests := by
  unfold onDataSpecial
  dsimp only []
  repeat' split
  all_goals first
    | exact hk
    | exact applyJS_requests_mono env _ _ _ _ k hk

theorem onDataSpecial_noDestroy (env : Env) (s : PortState) (argsV : JSVal) :
    (onDataSpecial env s argsV).2.1.countP isAdapterDestroy = 0 := by
  unfold onDataSpecial
  dsimp only []
  repeat' split
  all_goals first
    | rfl
    | exact applyJS_noDestroy env _ _ _ _

theorem onDataRegular_requests_mono (env : Env) (s : PortState) (nameV : JSVal)
    (id : Int) (argsV altThis : JSVal) (opt : Bool) (k : Nat) (hk : k ∈ s.requests) :
    k ∈ (onDataRegular env s nameV id argsV altThis opt).1.requests := by
  unfold onDataRegular
  dsimp only []
  repeat' split
  all_goals first
    | exact hk
    | exact invokeHandler_requests_mono env _ _ _ _ id _ k hk

theorem onDataRegular_noDestroy (env : Env) (s : PortState) (nameV : JSVal)
    (id : Int) (argsV altThis : JSVal) (opt : Bool) :
    (onDataRegular env s nameV id argsV altThis opt).2.1.countP isAdapterDestroy = 0 := by
  unfold onDataRegular
  dsimp only []
  repeat' split
  all_goals first
    | rfl
    | exact invokeHandler_noDestroy env _ _ _ _ id _

@[simp] theorem isAdapterDestroy_emitReply (hr : Bool) (i : Int) (a : List JSVal) :
    isAdapterDestroy (emitReply hr i a) = false := by
  unfold emitReply
  split <;> rfl

@[simp] theorem isAdapterDestroy_send (n : String) (i : Int) (a : List JSVal) (o : JSVal) :
    isAdapterDestroy (.send n i a o) = false := rfl
@[simp] theorem isAdapterDestroy_reply (i : Int) (a : List JSVal) :
    isAdapterDestroy (.reply i a) = false := rfl
@[simp] theorem isAdapterDestroy_diagnostic (m : String) (e : JSVal) :
    isAdapterDestroy (.diagnostic m e) = false := rfl
@[simp] theorem isAdapterDestroy_resolveReq (i : Nat) (v : JSVal) :
    isAdapterDestroy (.resolveReq i v) = false := rfl
@[simp] theorem isAdapterDestroy_rejectReq (i : Nat) (v : JSVal) :
    isAdapterDestroy (.rejectReq i v) = false := rfl
@[simp] theorem isAdapterDestroy_endedResolve (v : JSVal) :
    isAdapterDestroy (.endedResolve v) = false := rfl
@[simp] theorem isAdapterDestroy_attachPostLogger (t : Nat) :
    isAdapterDestroy (.attachPostLogger t) = false := rfl
@[simp] theorem isAdapterDestroy_attachReplyCont (u : Bool) (i : Int) (t : Nat) :
    isAdapterDestroy (.attachReplyCont u i t) = false := rfl
@[simp] theorem isAdapterDestroy_adapterDestroy :
    isAdapterDestroy .adapterDestroy = true := rfl

theorem onDataFinish_requests (s : PortState) (eid : JSVal) (hr : Bool)
    (effs : List Effect) (res : StepRes) :
    (onDataFinish s eid hr effs res).1.requests = s.requests := by
  unfold onDataFinish
  repeat' split
  all_goals rfl

theorem onDataFinish_countDestroy (s : PortState) (eid : JSVal) (hr : Bool)
    (effs : List Effect) (res : StepRes) :
    (onDataFinish s eid hr effs res).2.1.countP isAdapterDestroy
      = effs.countP isAdapterDestroy := by
  unfold onDataFinish
  repeat' split
  all_goals simp [List.countP_append, List.countP_cons]

theorem onData_zero_requests_mono (env : Env) (s : PortState) (nameV argsV altThis : JSVal)
    (hr opt : Bool) (k : Nat) (hk : k ∈ s.requests) :
    k ∈ (onData env s nameV 0 argsV altThis hr opt).1.requests := by
  unfold onData
  by_cases hn : jsTruthy nameV
  · simp [hn, onDataFinish_requests]
    exact onDataRegular_requests_mono env s nameV 0 argsV altThis opt k hk
  · simp [hn, onDataFinish_requests]
    exact onDataSpecial_requests_mono env s argsV k hk

theorem onData_zero_noDestroy (env : Env) (s : PortState) (nameV argsV altThis : JSVal)
    (hr opt : Bool) :
    (onData env s nameV 0 argsV altThis hr opt).2.1.countP isAdapterDestroy = 0 := by
  unfold onData
  by_cases hn : jsTruthy nameV
  · have h := onDataRegular_noDestroy env s nameV 0 argsV altThis opt
    simp [List.countP_eq_zero] at h
    simp [hn, onDataFinish_countDestroy, List.countP_eq_zero]
    exact h
  · have h := onDataSpecial_noDestroy env s argsV
    simp [List.countP_eq_zero] at h
    simp [hn, onDataFinish_countDestroy, List.countP_eq_zero]
    exact h

theorem flushQueue_requests_mono (env : Env) (q : List (JSVal × JSVal)) :
    ∀ (s : PortState) (k : Nat), k ∈ s.requests → k ∈ (flushQueue env s q).1.requests := by
  induction q with
  | nil => intro s k hk; exact hk
  | cons e rest ih =>
      intro s k hk
      unfold flushQueue
      dsimp only []
      exact ih _ k (onData_zero_requests_mono env s e.1 e.2 .undefined false false k hk)

theorem flushQueue_noDestroy (env : Env) (q : List (JSVal × JSVal)) :
    ∀ (s : PortState), (flushQueue env s q).2.countP isAdapterDestroy = 0 := by
  induction q with
  | nil => intro s; rfl
  | cons e rest ih =>
      intro s
      unfold flushQueue
      dsimp only []
      rw [List.countP_append, onData_zero_noDestroy, ih]

/-- `destroy` on an already-destroyed port (`this.public` nulled) returns
immediately: no state change, no effects, no exception. -/
theorem destroy_not_public (env : Env) (s : PortState) (r : Option JSVal)
    (h : s.public = false) : destroy env s r = (s, []) := by
  unfold destroy
  simp [h]

/-! ## Claim theorems -/

/-- A port with one callback binding: id `"cb1"` bound to the application
function `orig "f" 0`, in both directions. -/
def boundPort : PortState :=
  { initPort with id2cb := [("cb1", .orig "f" 0)], cb2id := [(.orig "f" 0, "cb1")] }

/-- **C1** (code bug).  The claim says an inbound control message
`['', 0, [0, 2, cbId]]` (tag 2 on the empty-name/id-0 channel, `cbId`
bound) removes the callback binding without sending a release notice.  The
source's tag-2 branch is labelled `// callback release` but its body is a
copy of the tag-1 (`endQueue.push`) branch: evaluating `onData` at such a
message leaves both directions of the binding in place and instead appends
`[cbId, undefined]` to the deferred-post queue (no effect is emitted, and
`false` is returned). -/
theorem c1_control_tag2_does_not_release :
    (onData emptyEnv boundPort (.str "") 0 (.arr [.num 0, .num 2, .str "cb1"])
        .undefined false false).1.id2cb = [("cb1", JSFun.orig "f" 0)]
  ∧ (onData emptyEnv boundPort (.str "") 0 (.arr [.num 0, .num 2, .str "cb1"])
        .undefined false false).1.cb2id = [(JSFun.orig "f" 0, "cb1")]
  ∧ (onData emptyEnv boundPort (.str "") 0 (.arr [.num 0, .num 2, .str "cb1"])
        .undefined false false).1.endQueue = [(.str "cb1", .undefined)]
  ∧ (onData emptyEnv boundPort (.str "") 0 (.arr [.num 0, .num 2, .str "cb1"])
        .undefined false false).2.1 = []
  ∧ (onData emptyEnv boundPort (.str "") 0 (.arr [.num 0, .num 2, .str "cb1"])
        .undefined false false).2.2 = false :=
  ⟨rfl, rfl, rfl, rfl, rfl⟩

/-- **C2** (counterexample).  The claim says `request("")` fails with a
synchronous `TypeError` before the adapter's `send` and before a Request
Table entry is created.  The source only checks `typeof name !== 'string'`,
so the empty string passes: the message is sent, an entry is created under
the fresh id `2`, and the promise of that entry is returned. -/
theorem c2_empty_name_accepted :
    (request emptyEnv initPort (.str "") []).2.2 = .pending 2
  ∧ (request emptyEnv initPort (.str "") []).1.requests = [2]
  ∧ (request emptyEnv initPort (.str "") []).2.1 = [.send "" 2 [] .jsNull] :=
  ⟨rfl, rfl, rfl⟩

/-- **C2** (amended).  After the options shift, every name that is not a
string (of any kind — the empty string is a string and is accepted) makes
`request` throw `TypeError: The request name must be a string` to the
immediate caller, with the state unchanged, no effect emitted (nothing
reaches the adapter's `send`) and no Request Table entry created. -/
theorem c2_request_nonstring_typeerror (env : Env) (s : PortState) (nameArg : JSVal)
    (args : List JSVal)
    (h : ∀ str, (requestShift nameArg args).2.1 ≠ JSVal.str str) :
    request env s nameArg args
      = (s, [], .thrown (mkError "TypeError" "The request name must be a string")) := by
  unfold request
  rcases hname : (requestShift nameArg args).2.1 <;> simp [hname]
  exact absurd hname (h _)

/-- Witness for the amended **C2**: `request(5)` at the initial state. -/
theorem c2_witness :
    request emptyEnv initPort (.num 5) []
      = (initPort, [], .thrown (mkError "TypeError" "The request name must be a string")) :=
  c2_request_nonstring_typeerror emptyEnv initPort (.num 5) []
    (by intro str h; simp [requestShift, typeofObject] at h)

/-- A port with an exact handler already registered under `"a.b"`. -/
def prefixedPort : PortState :=
  { initPort with handlers := [("a.b", .orig "old" 0, .undefined)] }

/-- **C3** (code bug).  The claim (and the source's own JSDoc) says
`addHandlers(prefix, handlers)` throws, registering nothing, when any
`prefix + name` is already taken.  The validation pass checks
`this.handlers.has(name)` for the UN-prefixed entry name, while the
registration pass writes `prefix + name`: with `"a.b"` taken,
`addHandlers("a.", { b })` finds no duplicate under `"b"`, throws nothing,
and silently overwrites the existing `"a.b"` registration. -/
theorem c3_addHandlers_prefix_bypasses_duplicate_check :
    (addHandlers prefixedPort (.str "a.") (.obj "Object" [("b", .fn (.orig "b" 1))])
        .undefined).2 = .ok
  ∧ (addHandlers prefixedPort (.str "a.") (.obj "Object" [("b", .fn (.orig "b" 1))])
        .undefined).1.handlers = [("a.b", JSFun.orig "b" 1, JSVal.undefined)] :=
  ⟨rfl, rfl⟩

/-- **C4**.  On the first `destroy` of a port (`public` still set): every
request pending at the call is rejected with the `ConnectionClosedError`-kind
reason `The Port this request is waiting on was destroyed`, the Request
Table is empty afterwards, and a request issued through the public interface
after the destroy fails synchronously (`getPrivate` throws). -/
theorem c4_destroy_rejects_pending (env : Env) (s : PortState) (reason : Option JSVal)
    (nameArg : JSVal) (args : List JSVal) (h : s.public = true) :
    (∀ k ∈ s.requests, Effect.rejectReq k destroyedError ∈ (destroy env s reason).2)
  ∧ (destroy env s reason).1.requests = []
  ∧ requestPublic env (destroy env s reason).1 nameArg args
      = ((destroy env s reason).1, [],
         .thrown (mkError "Error" "Can't use disconnected Port")) := by
  refine ⟨?_, ?_, ?_⟩
  · intro k hk
    unfold destroy
    simp only [h]
    have h1 : k ∈ (flushQueue env s s.endQueue).1.requests :=
      flushQueue_requests_mono env s.endQueue s k hk
    simp only [Bool.not_true, Bool.false_eq_true, if_false]
    exact List.mem_append_left _
      (List.mem_append_left _ (List.mem_append_right _ (List.mem_map_of_mem _ h1)))
  · unfold destroy
    simp [h]
  · unfold destroy requestPublic
    simp [h]

/-- A port with three calls pending (ids 2, 3, 4). -/
def pendingPort : PortState := { initPort with requests := [2, 3, 4], lastId := 4 }

/-- Witness for **C4**: destroying with 3 pending calls rejects all 3, the
table is empty, and a 4th call fails synchronously. -/
theorem c4_witness :
    (∀ k ∈ pendingPort.requests,
        Effect.rejectReq k destroyedError ∈ (destroy emptyEnv pendingPort none).2)
  ∧ (destroy emptyEnv pendingPort none).1.requests = []
  ∧ requestPublic emptyEnv (destroy emptyEnv pendingPort none).1 (.str "later") []
      = ((destroy emptyEnv pendingPort none).1, [],
         .thrown (mkError "Error" "Can't use disconnected Port")) :=
  c4_destroy_rejects_pending emptyEnv pendingPort none (.str "later") [] rfl

/-- **C5**.  After a first `destroy` (any environment, any reason), any
further `destroy` — with any environment and reason — is a silent no-op: it
returns without exception, changes nothing and emits no effect (in
particular it never reaches the adapter's `destroy`), while the first call
invoked the adapter's `destroy` exactly once; the port is left non-public,
so the no-op repeats forever. -/
theorem c5_destroy_idempotent (env env2 : Env) (s : PortState) (r r2 : Option JSVal)
    (h : s.public = true) :
    destroy env2 (destroy env s r).1 r2 = ((destroy env s r).1, [])
  ∧ (destroy env s r).2.countP isAdapterDestroy = 1
  ∧ (destroy env s r).1.public = false := by
  have hpub : (destroy env s r).1.public = false := by
    unfold destroy
    simp [h]
  refine ⟨destroy_not_public env2 _ r2 hpub, ?_, hpub⟩
  unfold destroy
  simp only [h, Bool.not_true, Bool.false_eq_true, if_false]
  rw [List.countP_append, List.countP_append, List.countP_append]
  rw [flushQueue_noDestroy]
  have hmap : ((flushQueue env s s.endQueue).1.requests.map
      (fun id => Effect.rejectReq id destroyedError)).countP isAdapterDestroy = 0 := by
    rw [List.countP_eq_zero]
    intro a ha
    rcases List.mem_map.mp ha with ⟨i, _, rfl⟩
    simp
  rw [hmap]
  rcases env.adapterDestroyThrows with _ | e <;> simp [List.countP_cons]

/-- Witness for **C5**: a double destroy at a concrete port. -/
theorem c5_witness :
    destroy emptyEnv (destroy emptyEnv pendingPort none).1 none
      = ((destroy emptyEnv pendingPort none).1, [])
  ∧ (destroy emptyEnv pendingPort none).2.countP isAdapterDestroy = 1
  ∧ (destroy emptyEnv pendingPort none).1.public = false :=
  c5_destroy_idempotent emptyEnv emptyEnv pendingPort none none rfl

/-- A port with exactly one pending request, id 2. -/
def replyPort : PortState := { initPort with requests := [2], lastId := 2 }

/-- **C6** (counterexample).  The claim says a reply whose |id| matches a
pending entry removes the entry AND settles its continuation with the
decoded first payload element.  When the payload does not decode (unknown
mapper tag), the source deletes the entry first and the decode throw is
caught as a diagnostic: the entry is gone but the continuation never
settles — no resolve/reject effect is emitted. -/
theorem c6_undecodable_reply_drops_entry :
    (onData emptyEnv replyPort (.str "") 2 (.arr [.obj "Object" [("", .num 9)]])
        .undefined false false).1.requests = []
  ∧ (onData emptyEnv replyPort (.str "") 2 (.arr [.obj "Object" [("", .num 9)]])
        .undefined false false).2.1
      = [.diagnostic "" (mkError "TypeError" "Can't unmap argument")]
  ∧ (onData emptyEnv replyPort (.str "") 2 (.arr [.obj "Object" [("", .num 9)]])
        .undefined false false).2.2 = false :=
  ⟨rfl, rfl, rfl⟩

/-- **C6** (amended).  Inbound reply dispatch (empty name, `id ≠ 0`): the
entry under |id| is always deleted; if it was pending and the first payload
element decodes, the matching continuation is resolved (`id > 0`) or
rejected (`id < 0`) with exactly the decoded value; if decoding throws, only
a diagnostic is reported (the removed entry's continuation never settles);
if no entry matches, a `Bad or duplicate response id` diagnostic is the only
outcome.  In every case `onData` returns `false` (it never throws), the
entry |id| is absent afterwards, and every other pending entry is untouched
— so out-of-order replies each settle exactly their own request. -/
theorem c6_reply_settles_exactly_its_request (env : Env) (s : PortState) (id : Int)
    (args : List JSVal) (altThis : JSVal) (hr opt : Bool) (hid : id ≠ 0) :
    (id.natAbs ∈ s.requests →
        (∀ v, (unmapValue env { s with requests := idsDelete s.requests id.natAbs }
                  (args.getD 0 .undefined)).2 = .ok v →
            onData env s (.str "") id (.arr args) altThis hr opt
              = ((unmapValue env { s with requests := idsDelete s.requests id.natAbs }
                    (args.getD 0 .undefined)).1,
                 [if id < 0 then Effect.rejectReq id.natAbs v
                  else Effect.resolveReq id.natAbs v], false))
      ∧ (∀ e, (unmapValue env { s with requests := idsDelete s.requests id.natAbs }
                  (args.getD 0 .undefined)).2 = .error e →
            onData env s (.str "") id (.arr args) altThis hr opt
              = ((unmapValue env { s with requests := idsDelete s.requests id.natAbs }
                    (args.getD 0 .undefined)).1,
                 [.diagnostic "" e], false)))
  ∧ (id.natAbs ∉ s.requests →
        onData env s (.str "") id (.arr args) altThis hr opt
          = ({ s with requests := idsDelete s.requests id.natAbs },
             [.diagnostic "" (mkError "Error" "Bad or duplicate response id")], false))
  ∧ (∀ m, m ≠ id.natAbs →
        (m ∈ (onData env s (.str "") id (.arr args) altThis hr opt).1.requests
          ↔ m ∈ s.requests))
  ∧ id.natAbs ∉ (onData env s (.str "") id (.arr args) altThis hr opt).1.requests
  ∧ (onData env s (.str "") id (.arr args) altThis hr opt).2.2 = false := by
  have hbranch : onData env s (.str "") id (.arr args) altThis hr opt
      = onDataReply env s id (.arr args) := by
    unfold onData
    simp [jsTruthy, jsFalsy, hid]
  have hreq : (onDataReply env s id (.arr args)).1.requests
      = idsDelete s.requests id.natAbs := by
    unfold onDataReply
    dsimp only [jsIndex]
    by_cases hc : s.requests.contains id.natAbs
    · simp only [hc, if_true]
      rcases hdec : (unmapValue env { s with requests := idsDelete s.requests id.natAbs }
          (args.getD 0 .undefined)).2 with e | v <;> simp [hdec]
    · simp only [hc, if_false, Bool.false_eq_true]
  refine ⟨?_, ?_, ?_, ?_, ?_⟩
  · intro hmem
    have hc : s.requests.contains id.natAbs = true := by
      simpa using hmem
    constructor
    · intro v hv
      rw [hbranch]
      unfold onDataReply
      dsimp only [jsIndex]
      rw [if_pos hc]
      simp only [hv]
    · intro e he
      rw [hbranch]
      unfold onDataReply
      dsimp only [jsIndex]
      rw [if_pos hc]
      simp only [he]
  · intro hmem
    have hc : s.requests.contains id.natAbs = false := by
      simpa using hmem
    rw [hbranch]
    unfold onDataReply
    dsimp only [jsIndex]
    rw [if_neg (by simpa using hmem)]
  · intro m hm
    rw [hbranch, hreq]
    simp [idsDelete, List.mem_filter, hm]
  · rw [hbranch, hreq]
    simp [idsDelete, List.mem_filter]
  · rw [hbranch]
    unfold onDataReply
    dsimp only [jsIndex]
    repeat' split
    all_goals rfl

/-- Witness for the amended **C6**: on a port with ids 2, 3, 4 pending, the
reply `('', 3, [7])` — arriving before the replies to 2 — settles exactly
request 3, leaves 2 and 4 pending, and returns `false`. -/
theorem c6_witness :
    ((3 : Int).natAbs ∈ pendingPort.requests →
        (∀ v, (unmapValue emptyEnv
                  { pendingPort with
                      requests := idsDelete pendingPort.requests (3 : Int).natAbs }
                  ([JSVal.num 7].getD 0 .undefined)).2 = .ok v →
            onData emptyEnv pendingPort (.str "") 3 (.arr [.num 7]) .undefined false false
              = ((unmapValue emptyEnv
                    { pendingPort with
                        requests := idsDelete pendingPort.requests (3 : Int).natAbs }
                    ([JSVal.num 7].getD 0 .undefined)).1,
                 [if (3 : Int) < 0 then Effect.rejectReq (3 : Int).natAbs v
                  else Effect.resolveReq (3 : Int).natAbs v], false))
      ∧ (∀ e, (unmapValue emptyEnv
                  { pendingPort with
                      requests := idsDelete pendingPort.requests (3 : Int).natAbs }
                  ([JSVal.num 7].getD 0 .undefined)).2 = .error e →
            onData emptyEnv pendingPort (.str "") 3 (.arr [.num 7]) .undefined false false
              = ((unmapValue emptyEnv
                    { pendingPort with
                        requests := idsDelete pendingPort.requests (3 : Int).natAbs }
                    ([JSVal.num 7].getD 0 .undefined)).1,
                 [.diagnostic "" e], false)))
  ∧ ((3 : Int).natAbs ∉ pendingPort.requests →
        onData emptyEnv pendingPort (.str "") 3 (.arr [.num 7]) .undefined false false
          = ({ pendingPort with
                 requests := idsDelete pendingPort.requests (3 : Int).natAbs },
             [.diagnostic "" (mkError "Error" "Bad or duplicate response id")], false))
  ∧ (∀ m, m ≠ (3 : Int).natAbs →
        (m ∈ (onData emptyEnv pendingPort (.str "") 3 (.arr [.num 7])
                .undefined false false).1.requests
          ↔ m ∈ pendingPort.requests))
  ∧ (3 : Int).natAbs ∉ (onData emptyEnv pendingPort (.str "") 3 (.arr [.num 7])
        .undefined false false).1.requests
  ∧ (onData emptyEnv pendingPort (.str "") 3 (.arr [.num 7])
        .undefined false false).2.2 = false :=
  c6_reply_settles_exactly_its_request emptyEnv pendingPort 3 [.num 7] .undefined false false
    (by decide)

/-! ## C7: idempotent interning -/

theorem getRandomId_ne_empty (c : CbState) : (getRandomId c).1 ≠ "" := by
  intro h
  have h2 := congrArg String.length h
  simp [getRandomId, String.length_append] at h2
  exact absurd h2.1 (by decide)

@[simp] theorem cbs_withCbs (s : PortState) (c : CbState) : (s.withCbs c).cbs = c := rfl

@[simp] theorem withCbs_cbs (s : PortState) : s.withCbs s.cbs = s := rfl

@[simp] theorem withCbs_withCbs (s : PortState) (c c' : CbState) :
    (s.withCbs c).withCbs c' = s.withCbs c' := rfl

@[simp] theorem mapValue_snd (s : PortState) (v : JSVal) :
    (mapValue s v).2 = (mapValueCb s.cbs v).2 := rfl
@[simp] theorem unmapValue_snd (env : Env) (s : PortState) (v : JSVal) :
    (unmapValue env s v).2 = (unmapValueCb env s.cbs v).2 := rfl

/-- Interning the same function twice: the second `mapValue` returns the
same wire value and leaves the mapper state fixed. -/
theorem mapValueCb_fn_idem (c : CbState) (f : JSFun) :
    mapValueCb (mapValueCb c (.fn f)).1 (.fn f) = mapValueCb c (.fn f) := by
  rcases hg : mapGet c.cb2id f with _ | cbId
  · simp [mapValueCb, hasEmptyKey, hg, mapGet_mapSet_self, mapSet_mapSet_self,
      getRandomId_ne_empty c]
  · by_cases hc : cbId = ""
    · subst hc
      simp [mapValueCb, hasEmptyKey, hg, mapGet_mapSet_self, mapSet_mapSet_self,
        getRandomId_ne_empty c]
    · simp [mapValueCb, hasEmptyKey, hg, hc, mapGet_mapSet_self, mapSet_mapSet_self]

/-- Decoding the same callback id twice: the second `unmapValue` returns the
same (memoised) stub and leaves the mapper state fixed. -/
theorem unmapValueCb_tag1_idem (env : Env) (c : CbState) (cb : String) :
    unmapValueCb env
        (unmapValueCb env c (.obj "Object" [("", .num 1), ("cb", .str cb)])).1
        (.obj "Object" [("", .num 1), ("cb", .str cb)])
      = unmapValueCb env c (.obj "Object" [("", .num 1), ("cb", .str cb)]) := by
  rcases hg : mapGet c.id2cb cb with _ | g
  · simp [unmapValueCb, hg, mapGet, getField, jsToString,
      mapGet_mapSet_self, mapSet_mapSet_self]
  · simp [unmapValueCb, hg, mapGet, getField, jsToString,
      mapGet_mapSet_self, mapSet_mapSet_self]

/-- **C7**.  On one port: encoding the same function value a second time
yields the same callback id (the same wire value) and does not change the
state, so any number of encodings agree; and decoding the same callback id a
second time yields the reference-identical local stub (the same `JSFun`
value, birth tag included) with the state unchanged, so any number of
decodings agree. -/
theorem c7_callback_interning_idempotent (env : Env) (s : PortState) (f : JSFun)
    (cb : String) :
    (mapValue (mapValue s (.fn f)).1 (.fn f)).2 = (mapValue s (.fn f)).2
  ∧ (mapValue (mapValue s (.fn f)).1 (.fn f)).1 = (mapValue s (.fn f)).1
  ∧ (unmapValue env (unmapValue env s (.obj "Object" [("", .num 1), ("cb", .str cb)])).1
        (.obj "Object" [("", .num 1), ("cb", .str cb)])).2
      = (unmapValue env s (.obj "Object" [("", .num 1), ("cb", .str cb)])).2
  ∧ (unmapValue env (unmapValue env s (.obj "Object" [("", .num 1), ("cb", .str cb)])).1
        (.obj "Object" [("", .num 1), ("cb", .str cb)])).1
      = (unmapValue env s (.obj "Object" [("", .num 1), ("cb", .str cb)])).1 := by
  refine ⟨?_, ?_, ?_, ?_⟩
  · simp only [mapValue_snd, mapValue_fst, cbs_withCbs]
    rw [mapValueCb_fn_idem]
  · simp only [mapValue_fst, cbs_withCbs, withCbs_withCbs]
    rw [mapValueCb_fn_idem]
  · simp only [unmapValue_snd, unmapValue_fst, cbs_withCbs]
    rw [unmapValueCb_tag1_idem]
  · simp only [unmapValue_fst, cbs_withCbs, withCbs_withCbs]
    rw [unmapValueCb_tag1_idem]

/-! ## C8: round trip of plain values -/

/-- `mapValue` leaves the mapper state untouched on every non-function. -/
theorem mapValueCb_nonfn (c : CbState) (v : JSVal) (h1 : isFunction v = false) :
    (mapValueCb c v).1 = c := by
  cases v
  case fn f => simp [isFunction] at h1
  all_goals
    unfold mapValueCb
    dsimp only []
    repeat' split
    all_goals rfl

/-- `unmapValue` is the identity on every value without the discriminant
key. -/
theorem unmapValueCb_plain (env : Env) (c : CbState) (v : JSVal)
    (hk : hasEmptyKey v = false) :
    unmapValueCb env c v = (c, .ok v) := by
  cases v <;> try rfl
  case obj cn fields =>
    rcases hget : mapGet fields "" with _ | t
    · simp [unmapValueCb, hget]
    · exfalso
      simp [hasEmptyKey, hget] at hk

/-- What `mapValue` does to a plain (non-function, non-Error-like) value:
identity, except for the collision wrap. -/
theorem mapValueCb_plain_val (c : CbState) (v : JSVal)
    (h1 : isFunction v = false) (h2 : errorLike v = false) :
    (mapValueCb c v).2
      = if hasEmptyKey v then .obj "Object" [("", .num 0), ("raw", v)] else v := by
  cases v
  case fn f => exact absurd h1 (by simp [isFunction])
  all_goals
    unfold mapValueCb
    dsimp only []
    repeat' split
    all_goals simp_all

/-- **C8**.  For every JSON-compatible value that is neither a function nor
Error-like: encoding leaves the encoder's state unchanged, decoding leaves
the decoder's state unchanged and returns exactly the original value (on any
two ports); and a value that carries the reserved discriminant key is
wrapped by `encode` as `{'': 0, raw: v}` (and, per the round trip, unwrapped
back to `v`). -/
theorem c8_plain_value_roundtrip (env : Env) (sA sB : PortState) (v : JSVal)
    (h1 : isFunction v = false) (h2 : errorLike v = false) :
    (mapValue sA v).1 = sA
  ∧ (unmapValue env sB (mapValue sA v).2).1 = sB
  ∧ (unmapValue env sB (mapValue sA v).2).2 = .ok v
  ∧ (hasEmptyKey v = true → (mapValue sA v).2 = .obj "Object" [("", .num 0), ("raw", v)]) := by
  have hval := mapValueCb_plain_val sA.cbs v h1 h2
  have hrt : unmapValueCb env sB.cbs (mapValueCb sA.cbs v).2 = (sB.cbs, .ok v) := by
    rw [hval]
    by_cases hk : hasEmptyKey v
    · simp only [hk, if_true]
      simp [unmapValueCb, mapGet, getField]
    · simp only [hk, if_false, Bool.false_eq_true]
      exact unmapValueCb_plain env sB.cbs v (by simpa using hk)
  refine ⟨?_, ?_, ?_, ?_⟩
  · simp only [mapValue_fst]
    rw [mapValueCb_nonfn sA.cbs v h1, withCbs_cbs]
  · simp only [unmapValue_fst, mapValue_snd]
    rw [hrt, withCbs_cbs]
  · simp only [unmapValue_snd, mapValue_snd]
    rw [hrt]
  · intro hk
    simp only [mapValue_snd]
    rw [hval, if_pos hk]

/-- A plain object carrying the mapper's reserved discriminant key. -/
def collidingObj : JSVal := .obj "Object" [("", .str "x")]

/-- Witness for **C8**: the colliding object round-trips through two initial
ports and is wrapped as `{'': 0, raw: v}` on the wire. -/
theorem c8_witness :
    (mapValue initPort collidingObj).1 = initPort
  ∧ (unmapValue emptyEnv initPort (mapValue initPort collidingObj).2).1 = initPort
  ∧ (unmapValue emptyEnv initPort (mapValue initPort collidingObj).2).2 = .ok collidingObj
  ∧ (hasEmptyKey collidingObj = true →
       (mapValue initPort collidingObj).2
         = .obj "Object" [("", .num 0), ("raw", collidingObj)]) :=
  c8_plain_value_roundtrip emptyEnv initPort initPort collidingObj (by decide) (by decide)

/-! ## C9: missing-handler dispatch -/

/-- **C9** (counterexample).  The claim says an optional message with no
matching handler is silently ignored — no reply, no error.  But argument
decoding runs BEFORE the handler lookup and the optional check: an optional
request whose payload does not decode gets an error reply
`('', -id, [mapped TypeError])` sent to the peer. -/
theorem c9_optional_bad_args_still_replies :
    (onData emptyEnv initPort (.str "x") 5 (.arr [.obj "Object" [("", .num 9)]])
        .undefined false true).2.1
      = [.send "" (-5)
           [(mapValue initPort (mkError "TypeError" "Can't unmap argument")).2] .undefined]
  ∧ (onData emptyEnv initPort (.str "x") 5 (.arr [.obj "Object" [("", .num 9)]])
        .undefined false true).2.2 = false :=
  ⟨rfl, rfl⟩

theorem findWildcard_none (env : Env) (l : List (Nat × JSFun × JSVal)) (n : String)
    (h : ∀ p ∈ l, env.ptest p.1 n = false) : findWildcard env l n = none := by
  induction l with
  | nil => rfl
  | cons p rest ih =>
      obtain ⟨tok, pair⟩ := p
      unfold findWildcard
      rw [h (tok, pair) (List.mem_cons_self _ _)]
      exact ih (fun q hq => h q (List.mem_cons_of_mem _ hq))

/-- **C9** (amended).  For an inbound request with a non-empty name, no
exact handler, no matching wildcard, and arguments that all decode: when the
optional flag is set the message is silently dropped (no reply, no error,
`false` returned); when it is not set and `id ≠ 0`, a reply carrying `-id`
and the mapped `No such handler` error is emitted (via the one-shot reply
function when the adapter offered one, else via `send`) and `onData` returns
`false` — nothing is thrown at its caller. -/
theorem c9_missing_handler_reply (env : Env) (s : PortState) (n : String) (id : Int)
    (args : List JSVal) (altThis : JSVal) (hr : Bool) (opt : Bool)
    (hn : n ≠ "")
    (hh : mapGet s.handlers n = none)
    (hw : ∀ p ∈ s.wildcards, env.ptest p.1 n = false)
    (vs : List JSVal) (hd : (unmapList env s args).2 = .ok vs) :
    (opt = true →
        onData env s (.str n) id (.arr args) altThis hr opt
          = ((unmapList env s args).1, [], false))
  ∧ (opt = false → id ≠ 0 →
        onData env s (.str n) id (.arr args) altThis hr opt
          = ((mapValue (unmapList env s args).1
                (mkError "Error" ("No such handler \"" ++ n ++ "\""))).1,
             [emitReply hr (-id)
                [(mapValue (unmapList env s args).1
                    (mkError "Error" ("No such handler \"" ++ n ++ "\""))).2]],
             false)) := by
  have hreg : onDataRegular env s (.str n) id (.arr args) altThis opt
      = ((unmapList env s args).1, [],
         if opt then StepRes.early false
         else .err (mkError "Error" ("No such handler \"" ++ n ++ "\""))) := by
    unfold onDataRegular
    dsimp only [argsMapList]
    rw [hd]
    have hfw : findWildcard env s.wildcards (jsToString (JSVal.str n)) = none := by
      dsimp only [jsToString]
      exact findWildcard_none env s.wildcards n hw
    simp only [unmapList_fst, withCbs_handlers, withCbs_wildcards, hh, hfw]
    cases opt <;> simp [jsToString]
  have hdispatch : onData env s (.str n) id (.arr args) altThis hr opt
      = onDataFinish (onDataRegular env s (.str n) id (.arr args) altThis opt).1
          (.num id) hr (onDataRegular env s (.str n) id (.arr args) altThis opt).2.1
          (onDataRegular env s (.str n) id (.arr args) altThis opt).2.2 := by
    unfold onData
    simp [jsTruthy, jsFalsy, hn]
  constructor
  · intro hopt
    subst hopt
    rw [hdispatch, hreg]
    simp [onDataFinish]
  · intro hopt hid
    subst hopt
    rw [hdispatch, hreg]
    have hte : jsTruthy (JSVal.num id) = true := by
      simp [jsTruthy, jsFalsy, hid]
    simp [onDataFinish, hte, jsToNumber]

/-- Witness for the amended **C9**: `('missing', 5, [])` on a fresh port
with no handlers. -/
theorem c9_witness :
    (false = true →
        onData emptyEnv initPort (.str "missing") 5 (.arr []) .undefined false false
          = ((unmapList emptyEnv initPort []).1, [], false))
  ∧ (false = false → (5 : Int) ≠ 0 →
        onData emptyEnv initPort (.str "missing") 5 (.arr []) .undefined false false
          = ((mapValue (unmapList emptyEnv initPort []).1
                (mkError "Error" ("No such handler \"" ++ "missing" ++ "\""))).1,
             [emitReply false (-5)
                [(mapValue (unmapList emptyEnv initPort []).1
                    (mkError "Error" ("No such handler \"" ++ "missing" ++ "\""))).2]],
             false)) :=
  c9_missing_handler_reply emptyEnv initPort "missing" 5 [] .undefined false false
    (by decide) rfl (fun p hp => absurd hp (List.not_mem_nil p)) [] rfl

/-! ## C10: releasing a callback with no binding -/

/-- **C10**.  `releaseCallback` with an argument that has no current binding
on this port — any non-function value, or a function absent from `cb2id`
(never sent, or already released) — returns without exception, sends
nothing, reports nothing, and leaves the state (both directions of the
callback registry included) unchanged. -/
theorem c10_release_without_binding_noop (s : PortState) (v : JSVal) (remote : Bool)
    (h : isFunction v = false ∨ ∃ f, v = .fn f ∧ mapGet s.cb2id f = none) :
    releaseCallback s v remote = (s, []) := by
  rcases h with h | ⟨f, rfl, hf⟩
  · cases v
    case fn f => simp [isFunction] at h
    all_goals rfl
  · unfold releaseCallback
    dsimp only []
    rw [hf]

/-- Witness for **C10**: releasing a number on a fresh port. -/
theorem c10_witness :
    releaseCallback initPort (.num 3) false = (initPort, []) :=
  c10_release_without_binding_noop initPort (.num 3) false (Or.inl rfl)

end Multiport
